import Mathlib

/-!
Shallow embedding of the gometeo weather service (Kafka consumer,
Postgres-backed record store, Redis cache, HTTP handlers) together with
proofs checking the specification's claims against the code.

Sources embedded:
- `src/internal/storage/postgres.go` — `WeatherStorage.Save`, `GetByCity`,
  `GetAllCities` (the SQL upsert and lookups over the `weather` table);
- `src/internal/cache/redis.go` — `Set`, `Get`, `Delete`, `CityKey`,
  `AllCitiesKey`;
- `src/internal/api/handlers/weather.go` — `GetWeather`, `GetAllCities`,
  `UpdateWeather`;
- `src/unnamed/part_000` — `ConsumerHandler.ConsumeClaim` (the Kafka
  ingestion loop) with sarama's `MarkMessage` offset semantics.

Conventions: Go `float64` temperatures are modelled as `Rat` (the claims
only copy values, never compute with them), `time.Time` as `Int`, the
Postgres table as a list of rows (the `city` primary key is the predicate
`TableWf`), the Redis cache as an association list.  External outcomes
(JSON parse results, store/cache connectivity failures) are passed as
explicit parameters, mirroring exactly where the Go code branches on an
error result.
-/

/-- Mirrors `model.WeatherData` (src/unnamed/part_002): the wire/ingest unit. -/
structure WeatherData where
  city : String
  temp : Rat
  condition : String
  provider : String
  timestamp : Int
deriving DecidableEq, Repr

/-- One row of the Postgres `weather` table (src/internal/storage/postgres.go,
table created in `New`): city PRIMARY KEY, temp, condition, provider, updated_at. -/
structure WeatherRow where
  city : String
  temp : Rat
  condition : String
  provider : String
  updated_at : Int
deriving DecidableEq, Repr

/-- The `weather` table as a list of rows. -/
abbrev Table := List WeatherRow

/-- The PRIMARY KEY constraint on `city`: no two rows share a city. -/
def TableWf (t : Table) : Prop :=
  t.Pairwise (fun r₁ r₂ => r₁.city ≠ r₂.city)

/-- `SELECT ... FROM weather WHERE city = $1` — first (only) row with the key. -/
def getRow (t : Table) (city : String) : Option WeatherRow :=
  t.find? (fun r => r.city == city)

/-- Number of rows stored for a given city key. -/
def countCity (t : Table) (city : String) : Nat :=
  t.countP (fun r => r.city == city)

/-- The `DO UPDATE SET temp, condition, provider, updated_at = EXCLUDED...`
action of the upsert, applied to the conflicting row (the row whose `city`
matches); other rows are untouched. -/
def updRow (now : Int) (d : WeatherData) (r : WeatherRow) : WeatherRow :=
  if r.city == d.city then
    { r with temp := d.temp, condition := d.condition,
             provider := d.provider, updated_at := now }
  else r

/-- The freshly inserted row of the upsert's `INSERT` branch. -/
def rowOf (now : Int) (d : WeatherData) : WeatherRow :=
  ⟨d.city, d.temp, d.condition, d.provider, now⟩

/-- `WeatherStorage.Save` (src/internal/storage/postgres.go lines 61-86):
`INSERT INTO weather ... ON CONFLICT (city) DO UPDATE SET temp, condition,
provider, updated_at = EXCLUDED...`.  `now` is the `time.Now()` passed as
`updated_at`; the reading's own `timestamp` is not stored. -/
def save (now : Int) (d : WeatherData) (t : Table) : Table :=
  if t.any (fun r => r.city == d.city) then t.map (updRow now d)
  else t ++ [rowOf now d]

/-- The variant `WeatherStorage.Save` in src/unnamed/part_001 (lines 51-75):
its `ON CONFLICT` update sets temp, condition and updated_at but omits
`provider`. -/
def savePartOne (now : Int) (d : WeatherData) (t : Table) : Table :=
  if t.any (fun r => r.city == d.city) then
    t.map (fun r =>
      if r.city == d.city then
        { r with temp := d.temp, condition := d.condition, updated_at := now }
      else r)
  else
    t ++ [⟨d.city, d.temp, d.condition, d.provider, now⟩]

/-- `WeatherStorage.GetByCity` (src/internal/storage/postgres.go lines 88-113).
`dbFail` models a transient driver error from `QueryRowContext` (other than
`sql.ErrNoRows`); the Go code wraps it as `ошибка получения данных: ...`.
An absent row (`sql.ErrNoRows`) becomes `город <city> не найден`.  On
success the row is returned as a `WeatherData` whose `timestamp` is the
row's `updated_at` (the `Scan` into `data.Timestamp`). -/
def getByCityGo (t : Table) (city : String) (dbFail : Option String) :
    Except String WeatherData :=
  match dbFail with
  | some e => .error ("ошибка получения данных: " ++ e)
  | none =>
    match getRow t city with
    | some r => .ok ⟨r.city, r.temp, r.condition, r.provider, r.updated_at⟩
    | none => .error ("город " ++ city ++ " не найден")

/-- The Redis cache (src/internal/cache/redis.go) as an association list from
key to the deserialized `WeatherData` value. -/
abbrev Cache := List (String × WeatherData)

/-- `cache.CityKey` (src/internal/cache/redis.go lines 100-102). -/
def CityKey (city : String) : String := "weather:city:" ++ city

/-- `cache.AllCitiesKey` (src/internal/cache/redis.go lines 104-106). -/
def AllCitiesKey : String := "weather:cities:all"

/-- `WeatherCache.Get` on a healthy connection: the value at the key, or a
miss (`redis.Nil`, returned as `nil, nil` in Go) when absent. -/
def cacheLookup (c : Cache) (key : String) : Option WeatherData :=
  (c.find? (fun kv => kv.1 == key)).map Prod.snd

/-- `WeatherCache.Set` on a healthy connection: unconditional overwrite. -/
def cachePut (c : Cache) (key : String) (d : WeatherData) : Cache :=
  (key, d) :: c.filter (fun kv => !(kv.1 == key))

/-- `WeatherCache.Delete` on a healthy connection: `DEL key`. -/
def cacheDelete (c : Cache) (key : String) : Cache :=
  c.filter (fun kv => !(kv.1 == key))

/-- Models `strings.ToLower` as used on city path variables (ASCII cities):
every character mapped to its lower-case form. -/
def goToLower (s : String) : String := ⟨s.data.map Char.toLower⟩

/-- Error envelope `model.ErrorResponse` (src/unnamed/part_002). -/
structure ErrorBody where
  error : String
  message : String
deriving DecidableEq, Repr

/-- The JSON responses the handlers in src/internal/api/handlers/weather.go
write: a weather body with its `cached` flag, a cities listing with its
`total`, the `status: ok` object of `UpdateWeather`, or an error envelope
with its HTTP status. -/
inductive Response where
  | weather (d : WeatherData) (cached : Bool)
  | cities (cs : List String) (total : Nat)
  | okStatus
  | errJson (status : Nat) (body : ErrorBody)
deriving DecidableEq, Repr

/-- HTTP status of a response (`sendJSON` is called with 200 on all
non-error paths). -/
def Response.statusCode : Response → Nat
  | .weather _ _ => 200
  | .cities _ _ => 200
  | .okStatus => 200
  | .errJson s _ => s

/-- `WeatherHandler.GetWeather` (src/internal/api/handlers/weather.go lines
32-87).  `rawCity` is the `{city}` path variable; `cacheGetErr` models a
Redis error on the initial `cache.Get` (logged, treated as a miss);
`dbFail` models a transient DB error inside `GetByCity`; `cacheSetErr`
models a Redis error on the populate `cache.Set` (logged, ignored).
Returns the response and the final cache state. -/
def GetWeather (t : Table) (c : Cache) (rawCity : String)
    (cacheGetErr : Bool) (dbFail : Option String) (cacheSetErr : Bool) :
    Response × Cache :=
  let city := goToLower rawCity
  let cachedData := if cacheGetErr then none else cacheLookup c (CityKey city)
  match cachedData with
  | some d => (.weather d true, c)
  | none =>
    match getByCityGo t city dbFail with
    | .error e => (.errJson 404 ⟨"Город не найден", e⟩, c)
    | .ok d =>
      let c' := if cacheSetErr then c else cachePut c (CityKey city) d
      (.weather d false, c')

/-- A cache operation issued by a handler, recorded in order of issue. -/
inductive CacheOp where
  | del (key : String)
  | put (key : String) (d : WeatherData)
deriving DecidableEq, Repr

/-- `WeatherHandler.UpdateWeather` (src/internal/api/handlers/weather.go
lines 145-179).  `body` is the result of decoding the request JSON
(`none` = malformed body); `now` is `time.Now()` (used both for
`data.Timestamp` and the upsert's `updated_at`); `saveOk` models whether
the DB write succeeds (`saveErr` its error text when it fails);
`delCityErr`/`delAllErr` model Redis errors on the two `cache.Delete`
calls (logged, ignored).  Returns the response, the final table, the
final cache, and the list of cache operations issued before the
response was written. -/
def UpdateWeather (t : Table) (c : Cache) (rawCity : String)
    (body : Option WeatherData) (now : Int)
    (saveOk : Bool) (saveErr : String) (delCityErr delAllErr : Bool) :
    Response × Table × Cache × List CacheOp :=
  let city := goToLower rawCity
  match body with
  | none => (.errJson 400 ⟨"Неверный формат JSON", "decode error"⟩, t, c, [])
  | some data₀ =>
    let data := { data₀ with city := city, timestamp := now }
    if saveOk then
      let t' := save now data t
      let c₁ := if delCityErr then c else cacheDelete c (CityKey city)
      let c₂ := if delAllErr then c₁ else cacheDelete c₁ AllCitiesKey
      (.okStatus, t', c₂, [.del (CityKey city), .del AllCitiesKey])
    else
      (.errJson 500 ⟨"Ошибка сохранения", saveErr⟩, t, c, [])

/-- Go `strings.Split` specialised to a one-character separator, on the
character-list level: splits around every occurrence of `sep`; the empty
input yields `[[]]` (Go: `strings.Split("", ",") == [""]`). -/
def splitCharOn (sep : Char) : List Char → List (List Char)
  | [] => [[]]
  | x :: xs =>
    match splitCharOn sep xs with
    | [] => [[]]
    | h :: t => if x = sep then [] :: h :: t else (x :: h) :: t

/-- Go `strings.Join` specialised to a one-character separator, on the
character-list level: the pieces with `sep` interposed. -/
def joinCharOn (sep : Char) : List (List Char) → List Char
  | [] => []
  | [x] => x
  | x :: y :: ys => x ++ sep :: joinCharOn sep (y :: ys)

/-- `strings.Split(s, ",")` as used on the cached city list
(src/internal/api/handlers/weather.go line 101). -/
def goSplitComma (s : String) : List String :=
  (splitCharOn ',' s.toList).map List.asString

/-- `strings.Join(cities, ",")` as used to encode the city list
(src/internal/api/handlers/weather.go line 125). -/
def goJoinComma (l : List String) : String :=
  (joinCharOn ',' (l.map String.toList)).asString

/-- The Go zero values fill the unused fields of the synthetic
`model.WeatherData` that carries the joined city list. -/
def citiesCacheValue (cities : List String) : WeatherData :=
  ⟨goJoinComma cities, 0, "", "", 0⟩

/-- `WeatherHandler.GetAllCities` (src/internal/api/handlers/weather.go
lines 90-142).  `storeCities` is the outcome of `store.GetAllCities`
(`.error` = DB failure); `cacheGetErr` models a Redis error on the cache
read (logged, treated as a miss); `cacheSetErr` a Redis error on the
populate.  Returns the response and the final cache. -/
def GetAllCities (storeCities : Except String (List String)) (c : Cache)
    (cacheGetErr : Bool) (cacheSetErr : Bool) : Response × Cache :=
  let cached := if cacheGetErr then none else cacheLookup c AllCitiesKey
  match cached with
  | some w =>
    let cities := goSplitComma w.city
    (.cities cities cities.length, c)
  | none =>
    match storeCities with
    | .error _ => (.errJson 500 ⟨"Внутренняя ошибка сервера", ""⟩, c)
    | .ok cities =>
      let c' := if cacheSetErr then c
                else cachePut c AllCitiesKey (citiesCacheValue cities)
      (.cities cities cities.length, c')

/-- One Kafka message of the `weather_data` topic as the consumer sees it:
its partition offset and the result of `json.Unmarshal` on its value
(`none` = malformed JSON). -/
structure KafkaMessage where
  offset : Nat
  parsed : Option WeatherData
deriving DecidableEq, Repr

/-- The consumer-group session state during `ConsumeClaim`
(src/unnamed/part_000 lines 103-127): `marked` is sarama's mark position
for the partition — the next offset to consume, advanced (monotonically)
to `msg.Offset + 1` by `sess.MarkMessage(msg, "")` — and `store` the
Postgres table written through `WeatherStorage.Save`. -/
structure SessionState where
  marked : Nat
  store : Table
deriving DecidableEq, Repr

/-- One iteration of the `for msg := range claim.Messages()` loop of
`ConsumerHandler.ConsumeClaim` (src/unnamed/part_000 lines 104-125):
on parse failure, log and `continue` (no mark, no store write); on
`store.Save` failure (`saveOk msg.offset = false`), log and `continue`
(no mark); on save success, write the table and `MarkMessage`. -/
def processMessage (saveOk : Nat → Bool) (now : Nat → Int)
    (s : SessionState) (m : KafkaMessage) : SessionState :=
  match m.parsed with
  | none => s
  | some data =>
    if saveOk m.offset then
      { marked := max s.marked (m.offset + 1),
        store := save (now m.offset) data s.store }
    else s

/-- `ConsumerHandler.ConsumeClaim` over the messages delivered in one
claim, starting from session state `s`. -/
def consumeClaim (saveOk : Nat → Bool) (now : Nat → Int)
    (s : SessionState) (msgs : List KafkaMessage) : SessionState :=
  msgs.foldl (processMessage saveOk now) s

/-- The messages a partition re-delivers on a later claim: restart resumes
from the committed offset (the final mark position), so exactly the
messages at or past it are presented again. -/
def deliverFrom (log : List KafkaMessage) (committed : Nat) : List KafkaMessage :=
  log.filter (fun m => decide (committed ≤ m.offset))

theorem updRow_city (now : Int) (d : WeatherData) (r : WeatherRow) :
    (updRow now d r).city = r.city := by
  unfold updRow; split <;> simp_all

theorem updRow_of_eq (now : Int) (d : WeatherData) (r : WeatherRow)
    (h : r.city = d.city) : updRow now d r = rowOf now d := by
  simp [updRow, rowOf, h]

theorem updRow_of_ne (now : Int) (d : WeatherData) (r : WeatherRow)
    (h : ¬ r.city = d.city) : updRow now d r = r := by
  simp [updRow, h]

theorem updRow_updRow (now₁ now₂ : Int) (d : WeatherData) (r : WeatherRow) :
    updRow now₂ d (updRow now₁ d r) = updRow now₂ d r := by
  by_cases h : r.city = d.city
  · rw [updRow_of_eq _ _ _ h, updRow_of_eq _ _ _ h, updRow_of_eq]
    rfl
  · rw [updRow_of_ne _ _ _ h]

theorem cityPred_comp_updRow (now : Int) (d : WeatherData) (c : String) :
    ((fun r => r.city == c) ∘ updRow now d) = fun r : WeatherRow => r.city == c := by
  funext r
  simp [Function.comp, updRow_city]

theorem getRow_save_self (now : Int) (d : WeatherData) (t : Table) :
    getRow (save now d t) d.city = some (rowOf now d) := by
  unfold save getRow
  cases ht : t.any (fun r => r.city == d.city) with
  | false =>
    simp only [ht, Bool.false_eq_true, if_false]
    rw [List.find?_append]
    have h1 : t.find? (fun r => r.city == d.city) = none := by
      rw [List.find?_eq_none]
      intro x hx
      have := List.any_eq_false.mp ht x hx
      simpa using this
    rw [h1]
    simp [rowOf]
  | true =>
    simp only [ht, if_true]
    rw [List.find?_map, cityPred_comp_updRow]
    have hex : ∃ x ∈ t, (fun r : WeatherRow => r.city == d.city) x = true :=
      List.any_eq_true.mp ht
    obtain ⟨r₁, hfind⟩ := Option.isSome_iff_exists.mp (List.find?_isSome.mpr hex)
    rw [hfind]
    have hp₁ : r₁.city = d.city := by simpa using List.find?_some hfind
    simp [updRow_of_eq _ _ _ hp₁]

theorem mem_save_city_eq (now : Int) (d : WeatherData) (t : Table) :
    ∀ r ∈ save now d t, r.city = d.city → r = rowOf now d := by
  intro r hr hcity
  unfold save at hr
  cases ht : t.any (fun x => x.city == d.city) with
  | false =>
    rw [ht] at hr
    simp only [Bool.false_eq_true, if_false, List.mem_append, List.mem_singleton] at hr
    rcases hr with hr | hr
    · have := List.any_eq_false.mp ht r hr
      simp [hcity] at this
    · exact hr
  | true =>
    rw [ht] at hr
    simp only [if_true, List.mem_map] at hr
    obtain ⟨x, hx, hupd⟩ := hr
    by_cases hxc : x.city = d.city
    · rw [← hupd, updRow_of_eq _ _ _ hxc]
    · rw [← hupd, updRow_of_ne _ _ _ hxc] at hcity ⊢
      exact absurd hcity hxc

theorem save_wf (now : Int) (d : WeatherData) (t : Table) (hwf : TableWf t) :
    TableWf (save now d t) := by
  unfold save
  cases ht : t.any (fun x => x.city == d.city) with
  | false =>
    simp only [Bool.false_eq_true, if_false]
    unfold TableWf at hwf ⊢
    rw [List.pairwise_append]
    refine ⟨hwf, by simp, ?_⟩
    intro a ha b hb
    simp only [List.mem_singleton] at hb
    subst hb
    have := List.any_eq_false.mp ht a ha
    simpa [rowOf] using this
  | true =>
    simp only [if_true]
    unfold TableWf at hwf ⊢
    rw [List.pairwise_map]
    exact hwf.imp (by intro a b h; simpa [updRow_city] using h)

theorem countP_city_of_wf (c : String) (t : Table) (hwf : TableWf t)
    (ht : t.any (fun r => r.city == c) = true) :
    t.countP (fun r => r.city == c) = 1 := by
  induction t with
  | nil => simp at ht
  | cons r rs ih =>
    rw [List.countP_cons]
    have hwf' : TableWf rs := hwf.of_cons
    have hhead : ∀ x ∈ rs, r.city ≠ x.city := fun x hx =>
      List.rel_of_pairwise_cons hwf hx
    by_cases hr : r.city = c
    · have h0 : rs.countP (fun x => x.city == c) = 0 := by
        rw [List.countP_eq_zero]
        intro x hx hxc
        have hxc' : x.city = c := by simpa using hxc
        exact hhead x hx (by rw [hr, hxc'])
      simp [h0, hr]
    · have ht' : rs.any (fun x => x.city == c) = true := by
        rcases List.any_eq_true.mp ht with ⟨x, hx, hxc⟩
        rcases List.mem_cons.mp hx with h | h
        · exact absurd (by simpa using hxc) (h ▸ hr)
        · exact List.any_eq_true.mpr ⟨x, h, hxc⟩
      simp [ih hwf' ht', hr]

theorem countCity_save_self (now : Int) (d : WeatherData) (t : Table)
    (hwf : TableWf t) : countCity (save now d t) d.city = 1 := by
  unfold save countCity
  cases ht : t.any (fun x => x.city == d.city) with
  | false =>
    simp only [Bool.false_eq_true, if_false]
    rw [List.countP_append]
    have h0 : t.countP (fun r => r.city == d.city) = 0 := by
      rw [List.countP_eq_zero]
      exact List.any_eq_false.mp ht
    rw [h0]
    simp [rowOf, List.countP_cons]
  | true =>
    simp only [if_true]
    rw [List.countP_map, cityPred_comp_updRow]
    exact countP_city_of_wf d.city t hwf ht

theorem any_city_save_self (now : Int) (d : WeatherData) (t : Table) :
    (save now d t).any (fun r => r.city == d.city) = true := by
  unfold save
  cases ht : t.any (fun x => x.city == d.city) with
  | false =>
    simp only [Bool.false_eq_true, if_false]
    exact List.any_eq_true.mpr ⟨rowOf now d, by simp, by simp [rowOf]⟩
  | true =>
    simp only [if_true]
    rw [List.any_map, cityPred_comp_updRow]
    exact ht

theorem save_save (now₁ now₂ : Int) (d : WeatherData) (t : Table) :
    save now₂ d (save now₁ d t) = save now₂ d t := by
  have hany := any_city_save_self now₁ d t
  unfold save
  rw [show (if t.any (fun x => x.city == d.city) then t.map (updRow now₁ d)
      else t ++ [rowOf now₁ d]).any (fun r => r.city == d.city) = true from hany]
  simp only [if_true]
  cases ht : t.any (fun x => x.city == d.city) with
  | true =>
    simp only [ht, if_true]
    rw [List.map_map]
    exact List.map_congr_left (fun r _ => updRow_updRow now₁ now₂ d r)
  | false =>
    simp only [ht, Bool.false_eq_true, if_false]
    rw [List.map_append]
    have h1 : t.map (updRow now₂ d) = t := by
      have : t.map (updRow now₂ d) = t.map id :=
        List.map_congr_left (fun r hr => updRow_of_ne now₂ d r
          (by simpa using List.any_eq_false.mp ht r hr))
      simpa using this
    have h2 : [rowOf now₁ d].map (updRow now₂ d) = [rowOf now₂ d] := by
      simp only [List.map_cons, List.map_nil]
      rw [updRow_of_eq now₂ d (rowOf now₁ d) rfl]
    rw [h1, h2]

/-- C5: `WeatherStorage.Save` applied to a city that already has a Record
replaces all mutable fields — temperature, condition and provider — with
the incoming Reading's values and stamps `updated_at` with the time of the
call; every row held for that city afterwards is exactly the fully
replaced row, so fields are never partially applied. -/
theorem c5_upsert_replaces_all_fields (t : Table) (d : WeatherData) (now : Int)
    (hpresent : getRow t d.city ≠ none) :
    getRow (save now d t) d.city =
      some ⟨d.city, d.temp, d.condition, d.provider, now⟩ ∧
    ∀ r ∈ save now d t, r.city = d.city →
      r = ⟨d.city, d.temp, d.condition, d.provider, now⟩ :=
  ⟨getRow_save_self now d t, mem_save_city_eq now d t⟩

theorem c5_upsert_replaces_all_fields_witness :
    getRow ([⟨"paris", mkRat 1 1, "Fog", "Old", 0⟩] : Table) "paris" ≠ none ∧
    getRow (save 5 ⟨"paris", mkRat 37 2, "Clear", "X", 3⟩
        [⟨"paris", mkRat 1 1, "Fog", "Old", 0⟩]) "paris" =
      some ⟨"paris", mkRat 37 2, "Clear", "X", 5⟩ :=
  ⟨by decide,
   (c5_upsert_replaces_all_fields [⟨"paris", mkRat 1 1, "Fog", "Old", 0⟩]
      ⟨"paris", mkRat 37 2, "Clear", "X", 3⟩ 5 (by decide)).1⟩

/-- C7: when two Readings for the same city are applied to the store in some
processing order, the single Record stored at the end is the Reading
processed last (its temperature, condition and provider, with
`updated_at` the second call's time), regardless of how the two Readings'
observed-at timestamps are ordered — last-arrival-wins, not
last-event-wins. -/
theorem c7_last_arrival_wins (t : Table) (d₁ d₂ : WeatherData)
    (now₁ now₂ : Int) (hc : d₁.city = d₂.city) (hwf : TableWf t) :
    getRow (save now₂ d₂ (save now₁ d₁ t)) d₂.city =
      some ⟨d₂.city, d₂.temp, d₂.condition, d₂.provider, now₂⟩ ∧
    countCity (save now₂ d₂ (save now₁ d₁ t)) d₂.city = 1 :=
  ⟨getRow_save_self now₂ d₂ _,
   countCity_save_self now₂ d₂ _ (save_wf now₁ d₁ t hwf)⟩

theorem c7_last_arrival_wins_witness :
    (⟨"Paris", mkRat 19 1, "Rain", "X", 1⟩ : WeatherData).city =
      (⟨"Paris", mkRat 37 2, "Clear", "X", 2⟩ : WeatherData).city ∧
    TableWf ([] : Table) ∧
    ((1 : Int) < 2 ∧
     getRow (save 11 ⟨"Paris", mkRat 37 2, "Clear", "X", 2⟩
        (save 10 ⟨"Paris", mkRat 19 1, "Rain", "X", 1⟩ [])) "Paris" =
      some ⟨"Paris", mkRat 37 2, "Clear", "X", 11⟩ ∧
     countCity (save 11 ⟨"Paris", mkRat 37 2, "Clear", "X", 2⟩
        (save 10 ⟨"Paris", mkRat 19 1, "Rain", "X", 1⟩ [])) "Paris" = 1) :=
  ⟨rfl, List.Pairwise.nil,
   by decide,
   (c7_last_arrival_wins [] ⟨"Paris", mkRat 19 1, "Rain", "X", 1⟩
      ⟨"Paris", mkRat 37 2, "Clear", "X", 2⟩ 10 11 rfl List.Pairwise.nil).1,
   (c7_last_arrival_wins [] ⟨"Paris", mkRat 19 1, "Rain", "X", 1⟩
      ⟨"Paris", mkRat 37 2, "Clear", "X", 2⟩ 10 11 rfl List.Pairwise.nil).2⟩

/-- C8: the upsert is idempotent — applying the same Record twice (the two
calls stamping times `now₁` and `now₂`) leaves the store in exactly the
state of applying it once at the second call, and the number of rows for
that city is exactly one after each application. -/
theorem c8_idempotent_upsert (t : Table) (d : WeatherData) (now₁ now₂ : Int)
    (hwf : TableWf t) :
    save now₂ d (save now₁ d t) = save now₂ d t ∧
    countCity (save now₁ d t) d.city = 1 ∧
    countCity (save now₂ d (save now₁ d t)) d.city = 1 :=
  ⟨save_save now₁ now₂ d t,
   countCity_save_self now₁ d t hwf,
   by rw [save_save now₁ now₂ d t]; exact countCity_save_self now₂ d t hwf⟩

theorem c8_idempotent_upsert_witness :
    TableWf ([⟨"berlin", mkRat 3 1, "Snow", "Y", 0⟩] : Table) ∧
    (save 8 ⟨"moscow", mkRat 7 2, "Cloudy", "X", 4⟩
       (save 6 ⟨"moscow", mkRat 7 2, "Cloudy", "X", 4⟩
         [⟨"berlin", mkRat 3 1, "Snow", "Y", 0⟩]) =
     save 8 ⟨"moscow", mkRat 7 2, "Cloudy", "X", 4⟩
       [⟨"berlin", mkRat 3 1, "Snow", "Y", 0⟩] ∧
     countCity (save 6 ⟨"moscow", mkRat 7 2, "Cloudy", "X", 4⟩
       [⟨"berlin", mkRat 3 1, "Snow", "Y", 0⟩]) "moscow" = 1 ∧
     countCity (save 8 ⟨"moscow", mkRat 7 2, "Cloudy", "X", 4⟩
       (save 6 ⟨"moscow", mkRat 7 2, "Cloudy", "X", 4⟩
         [⟨"berlin", mkRat 3 1, "Snow", "Y", 0⟩])) "moscow" = 1) :=
  ⟨by simp [TableWf],
   c8_idempotent_upsert [⟨"berlin", mkRat 3 1, "Snow", "Y", 0⟩]
     ⟨"moscow", mkRat 7 2, "Cloudy", "X", 4⟩ 6 8 (by simp [TableWf])⟩

theorem save_length_of_any (now : Int) (d : WeatherData) (t : Table)
    (h : t.any (fun r => r.city == d.city) = true) :
    (save now d t).length = t.length := by
  simp [save, h]

/-- C1 counterexample: a claim consisting of one malformed message (offset
0, unparseable payload) with a healthy store.  The code merely logs and
`continue`s without `MarkMessage`, so the committed offset stays 0 — it
does not advance at all, let alone exactly once — and a later claim
re-delivers the very same malformed message. -/
theorem c1_counterexample :
    (consumeClaim (fun _ => true) (fun _ => 0) ⟨0, []⟩
      [⟨0, none⟩]).marked = 0 ∧
    deliverFrom [⟨0, none⟩]
      (consumeClaim (fun _ => true) (fun _ => 0) ⟨0, []⟩ [⟨0, none⟩]).marked =
      [⟨0, none⟩] := by decide

/-- C1 amended: on a parse failure the consumer logs and skips the message
WITHOUT acknowledging it — the session's mark position and the store are
both unchanged — and a claim consisting solely of malformed messages
leaves the committed offset exactly where it started, so every one of
those messages is presented again by a later claim. -/
theorem c1_amended_malformed_not_acked (saveOk : Nat → Bool) (now : Nat → Int)
    (s : SessionState) (m : KafkaMessage) (hm : m.parsed = none) :
    processMessage saveOk now s m = s ∧
    ∀ msgs : List KafkaMessage, (∀ m' ∈ msgs, m'.parsed = none) →
      consumeClaim saveOk now s msgs = s := by
  constructor
  · simp [processMessage, hm]
  · intro msgs hall
    induction msgs with
    | nil => rfl
    | cons m' ms ih =>
      have h1 : processMessage saveOk now s m' = s := by
        simp [processMessage, hall m' (List.mem_cons_self m' ms)]
      have h2 : consumeClaim saveOk now s (m' :: ms) =
          consumeClaim saveOk now (processMessage saveOk now s m') ms := rfl
      rw [h2, h1]
      exact ih (fun x hx => hall x (List.mem_cons_of_mem m' hx))

theorem c1_amended_malformed_not_acked_witness :
    (⟨5, none⟩ : KafkaMessage).parsed = none ∧
    processMessage (fun _ => true) (fun _ => 0) ⟨3, []⟩ ⟨5, none⟩ = ⟨3, []⟩ ∧
    consumeClaim (fun _ => true) (fun _ => 0) ⟨3, []⟩ [⟨5, none⟩, ⟨6, none⟩] =
      ⟨3, []⟩ :=
  ⟨rfl,
   (c1_amended_malformed_not_acked (fun _ => true) (fun _ => 0) ⟨3, []⟩
      ⟨5, none⟩ rfl).1,
   (c1_amended_malformed_not_acked (fun _ => true) (fun _ => 0) ⟨3, []⟩
      ⟨5, none⟩ rfl).2 [⟨5, none⟩, ⟨6, none⟩] (by decide)⟩

/-- C2 counterexample: two parsed messages in one claim; the store write
fails for offset 0 and succeeds for offset 1.  `MarkMessage` on message 1
moves the mark position to 2, past the failed message 0: its offset HAS
advanced, it is never re-delivered (`deliverFrom` at the committed offset
is empty), and its reading is permanently absent from the store. -/
theorem c2_counterexample :
    (consumeClaim (fun n => n == 1) (fun _ => 0) ⟨0, []⟩
      [⟨0, some ⟨"london", mkRat 5 1, "Fog", "X", 1⟩⟩,
       ⟨1, some ⟨"berlin", mkRat 6 1, "Sun", "X", 2⟩⟩]).marked = 2 ∧
    deliverFrom
      [⟨0, some ⟨"london", mkRat 5 1, "Fog", "X", 1⟩⟩,
       ⟨1, some ⟨"berlin", mkRat 6 1, "Sun", "X", 2⟩⟩]
      (consumeClaim (fun n => n == 1) (fun _ => 0) ⟨0, []⟩
        [⟨0, some ⟨"london", mkRat 5 1, "Fog", "X", 1⟩⟩,
         ⟨1, some ⟨"berlin", mkRat 6 1, "Sun", "X", 2⟩⟩]).marked = [] ∧
    getRow (consumeClaim (fun n => n == 1) (fun _ => 0) ⟨0, []⟩
      [⟨0, some ⟨"london", mkRat 5 1, "Fog", "X", 1⟩⟩,
       ⟨1, some ⟨"berlin", mkRat 6 1, "Sun", "X", 2⟩⟩]).store "london" = none := by
  decide

/-- C2 amended: a successfully parsed message is marked exactly when its
upsert succeeds — on success the mark position advances to the message's
offset + 1 and the reading is upserted; on failure the session state is
unchanged — and a failed message is re-delivered by a later claim
provided no later message of the partition gets acknowledged (it was the
claim's last message here); an acknowledged successor would advance the
committed offset past it. -/
theorem c2_amended_ack_iff_upsert (saveOk : Nat → Bool) (now : Nat → Int)
    (s : SessionState) (m : KafkaMessage) (d : WeatherData)
    (hp : m.parsed = some d) (hmark : s.marked ≤ m.offset) :
    (saveOk m.offset = true →
      processMessage saveOk now s m =
        ⟨m.offset + 1, save (now m.offset) d s.store⟩) ∧
    (saveOk m.offset = false → processMessage saveOk now s m = s) ∧
    (saveOk m.offset = false → ∀ log : List KafkaMessage, m ∈ log →
      m ∈ deliverFrom log (consumeClaim saveOk now s [m]).marked) := by
  refine ⟨?_, ?_, ?_⟩
  · intro hok
    simp only [processMessage, hp, hok, if_true]
    have : max s.marked (m.offset + 1) = m.offset + 1 :=
      Nat.max_eq_right (Nat.le_succ_of_le hmark)
    rw [this]
  · intro hfail
    simp [processMessage, hp, hfail]
  · intro hfail log hmem
    have hstate : consumeClaim saveOk now s [m] = s := by
      show consumeClaim saveOk now (processMessage saveOk now s m) [] = _
      simp [consumeClaim, processMessage, hp, hfail]
    rw [hstate]
    unfold deliverFrom
    exact List.mem_filter.mpr ⟨hmem, by simpa using hmark⟩

theorem c2_amended_ack_iff_upsert_witness :
    (⟨4, some ⟨"tokyo", mkRat 8 1, "Rain", "X", 9⟩⟩ : KafkaMessage).parsed =
      some ⟨"tokyo", mkRat 8 1, "Rain", "X", 9⟩ ∧
    (3 : Nat) ≤ 4 ∧
    processMessage (fun _ => false) (fun _ => 0) ⟨3, []⟩
      ⟨4, some ⟨"tokyo", mkRat 8 1, "Rain", "X", 9⟩⟩ = ⟨3, []⟩ ∧
    (⟨4, some ⟨"tokyo", mkRat 8 1, "Rain", "X", 9⟩⟩ : KafkaMessage) ∈
      deliverFrom [⟨4, some ⟨"tokyo", mkRat 8 1, "Rain", "X", 9⟩⟩]
        (consumeClaim (fun _ => false) (fun _ => 0) ⟨3, []⟩
          [⟨4, some ⟨"tokyo", mkRat 8 1, "Rain", "X", 9⟩⟩]).marked :=
  ⟨rfl, by decide,
   (c2_amended_ack_iff_upsert (fun _ => false) (fun _ => 0) ⟨3, []⟩
      ⟨4, some ⟨"tokyo", mkRat 8 1, "Rain", "X", 9⟩⟩
      ⟨"tokyo", mkRat 8 1, "Rain", "X", 9⟩ rfl (by decide)).2.1 rfl,
   (c2_amended_ack_iff_upsert (fun _ => false) (fun _ => 0) ⟨3, []⟩
      ⟨4, some ⟨"tokyo", mkRat 8 1, "Rain", "X", 9⟩⟩
      ⟨"tokyo", mkRat 8 1, "Rain", "X", 9⟩ rfl (by decide)).2.2 rfl
      [⟨4, some ⟨"tokyo", mkRat 8 1, "Rain", "X", 9⟩⟩] (by decide)⟩

/-- C3 counterexample: the ingestion consumer stores the stream Reading's
city byte-for-byte (`"Paris"`), while the HTTP PUT path lowercases the
path variable (`"paris"`); after one ingest of `"Paris"` and one PUT to
`/weather/Paris`, the table holds TWO rows whose case-insensitive city is
paris, not one updated Record. -/
theorem c3_counterexample :
    ((UpdateWeather
        (consumeClaim (fun _ => true) (fun _ => 0) ⟨0, []⟩
          [⟨0, some ⟨"Paris", mkRat 37 2, "Clear", "X", 1⟩⟩]).store
        [] "Paris" (some ⟨"", mkRat 19 1, "Rain", "X", 2⟩) 3 true "" false
        false).2.1.countP
      (fun r => goToLower r.city == "paris") = 2) ∧
    ((UpdateWeather
        (consumeClaim (fun _ => true) (fun _ => 0) ⟨0, []⟩
          [⟨0, some ⟨"Paris", mkRat 37 2, "Clear", "X", 1⟩⟩]).store
        [] "Paris" (some ⟨"", mkRat 19 1, "Rain", "X", 2⟩) 3 true "" false
        false).2.1 =
      [⟨"Paris", mkRat 37 2, "Clear", "X", 0⟩,
       ⟨"paris", mkRat 19 1, "Rain", "X", 3⟩]) := by decide

/-- C3 amended: only the HTTP PUT path normalizes the city — it stores
under `goToLower raw` — while the ingestion path stores the Reading's
city verbatim; consequently two writes for the same city agree on one
Record precisely when the ingested city string is already the normalized
form, in which case the PUT updates the ingested Record in place (table
size unchanged) instead of creating a second one. -/
theorem c3_amended_normalization (t : Table) (c : Cache) (d body : WeatherData)
    (raw : String) (off : Nat) (saveOk : Nat → Bool) (nowC : Nat → Int)
    (now : Int) (saveErr : String) (delCityErr delAllErr : Bool)
    (hok : saveOk off = true) :
    getRow (UpdateWeather t c raw (some body) now true saveErr delCityErr
        delAllErr).2.1 (goToLower raw) =
      some ⟨goToLower raw, body.temp, body.condition, body.provider, now⟩ ∧
    getRow (processMessage saveOk nowC ⟨0, t⟩ ⟨off, some d⟩).store d.city =
      some ⟨d.city, d.temp, d.condition, d.provider, nowC off⟩ ∧
    (d.city = goToLower raw →
      (UpdateWeather (processMessage saveOk nowC ⟨0, t⟩ ⟨off, some d⟩).store
          c raw (some body) now true saveErr delCityErr delAllErr).2.1.length =
        (processMessage saveOk nowC ⟨0, t⟩ ⟨off, some d⟩).store.length) := by
  have hstore : (processMessage saveOk nowC ⟨0, t⟩ ⟨off, some d⟩).store =
      save (nowC off) d t := by
    simp [processMessage, hok]
  refine ⟨?_, ?_, ?_⟩
  · exact getRow_save_self now _ t
  · rw [hstore]
    exact getRow_save_self (nowC off) d t
  · intro hlc
    show (save now _ _).length = _
    apply save_length_of_any
    rw [hstore, ← hlc]
    exact any_city_save_self (nowC off) d t

theorem c3_amended_normalization_witness :
    ((fun _ : Nat => true) 0 = true) ∧
    ((⟨"paris", mkRat 37 2, "Clear", "X", 1⟩ : WeatherData).city =
      goToLower "Paris") ∧
    getRow (UpdateWeather
        (processMessage (fun _ => true) (fun _ => 2) ⟨0, []⟩
          ⟨0, some ⟨"paris", mkRat 37 2, "Clear", "X", 1⟩⟩).store
        [] "Paris" (some ⟨"", mkRat 19 1, "Rain", "X", 5⟩) 7 true "" false
        false).2.1 (goToLower "Paris") =
      some ⟨goToLower "Paris", mkRat 19 1, "Rain", "X", 7⟩ ∧
    (UpdateWeather
        (processMessage (fun _ => true) (fun _ => 2) ⟨0, []⟩
          ⟨0, some ⟨"paris", mkRat 37 2, "Clear", "X", 1⟩⟩).store
        [] "Paris" (some ⟨"", mkRat 19 1, "Rain", "X", 5⟩) 7 true "" false
        false).2.1.length =
      (processMessage (fun _ => true) (fun _ => 2) ⟨0, []⟩
        ⟨0, some ⟨"paris", mkRat 37 2, "Clear", "X", 1⟩⟩).store.length :=
  ⟨rfl, by decide,
   (c3_amended_normalization
      (processMessage (fun _ => true) (fun _ => 2) ⟨0, []⟩
        ⟨0, some ⟨"paris", mkRat 37 2, "Clear", "X", 1⟩⟩).store
      [] ⟨"paris", mkRat 37 2, "Clear", "X", 1⟩
      ⟨"", mkRat 19 1, "Rain", "X", 5⟩ "Paris" 0 (fun _ => true) (fun _ => 2)
      7 "" false false rfl).1,
   (c3_amended_normalization [] [] ⟨"paris", mkRat 37 2, "Clear", "X", 1⟩
      ⟨"", mkRat 19 1, "Rain", "X", 5⟩ "Paris" 0 (fun _ => true) (fun _ => 2)
      7 "" false false rfl).2.2 (by decide)⟩

theorem cacheLookup_delete_self (c : Cache) (k : String) :
    cacheLookup (cacheDelete c k) k = none := by
  unfold cacheLookup cacheDelete
  rw [List.find?_eq_none.mpr]
  · rfl
  · intro x hx
    have h := (List.mem_filter.mp hx).2
    simpa using h

theorem cacheLookup_delete_none (c : Cache) (k k' : String)
    (h : cacheLookup c k = none) : cacheLookup (cacheDelete c k') k = none := by
  unfold cacheLookup at h ⊢
  unfold cacheDelete
  rw [List.find?_eq_none.mpr]
  · rfl
  · intro x hx
    have hx₁ := (List.mem_filter.mp hx).1
    have hnone := Option.map_eq_none'.mp h
    exact List.find?_eq_none.mp hnone x hx₁

/-- C4 counterexample: a single-city read that reaches the store while the
store is failing (a transient driver error, not a missing row) is
answered with HTTP 404 — the store failure is surfaced as "city not
found", not as any 5xx server error. -/
theorem c4_counterexample :
    (GetWeather [⟨"paris", mkRat 1 1, "Fog", "X", 0⟩] [] "paris" false
      (some "connection refused") false).1 =
      Response.errJson 404
        ⟨"Город не найден", "ошибка получения данных: connection refused"⟩ ∧
    (GetWeather [⟨"paris", mkRat 1 1, "Fog", "X", 0⟩] [] "paris" false
      (some "connection refused") false).1.statusCode = 404 ∧
    ¬ 500 ≤ (GetWeather [⟨"paris", mkRat 1 1, "Fog", "X", 0⟩] [] "paris" false
      (some "connection refused") false).1.statusCode := by decide

/-- C4 amended: on the single-city read path a cache error is treated
exactly like a cache miss (the response equals the one produced with any
missing cache entry, so the cache error is never surfaced), but EVERY
store error becomes a 404 response: a transient store failure is
reported as "Город не найден" with the wrapped driver error, exactly as
a genuinely absent city is — no 5xx is ever produced on this path. -/
theorem c4_amended_cache_miss_store_404 (t : Table) (c c₂ : Cache)
    (raw : String) (dbFail : Option String) (cacheSetErr : Bool) (e : String)
    (hmiss : cacheLookup c₂ (CityKey (goToLower raw)) = none) :
    (GetWeather t c raw true dbFail cacheSetErr).1 =
      (GetWeather t c₂ raw false dbFail cacheSetErr).1 ∧
    (GetWeather t c₂ raw false (some e) cacheSetErr).1 =
      Response.errJson 404
        ⟨"Город не найден", "ошибка получения данных: " ++ e⟩ ∧
    (getRow t (goToLower raw) = none →
      (GetWeather t c₂ raw false none cacheSetErr).1 =
        Response.errJson 404
          ⟨"Город не найден", "город " ++ goToLower raw ++ " не найден"⟩) := by
  refine ⟨?_, ?_, ?_⟩
  · show (match (getByCityGo t (goToLower raw) dbFail :
        Except String WeatherData) with
      | .error e => (Response.errJson 404 ⟨"Город не найден", e⟩, c)
      | .ok d =>
        (Response.weather d false,
          if cacheSetErr then c else cachePut c (CityKey (goToLower raw)) d)).1 = _
    rw [show (GetWeather t c₂ raw false dbFail cacheSetErr) = _ from rfl]
    simp only [GetWeather, hmiss]
    cases getByCityGo t (goToLower raw) dbFail <;> rfl
  · simp [GetWeather, hmiss, getByCityGo]
  · intro habsent
    simp [GetWeather, hmiss, getByCityGo, habsent]

theorem c4_amended_cache_miss_store_404_witness :
    cacheLookup [] (CityKey (goToLower "paris")) = none ∧
    (GetWeather [⟨"paris", mkRat 1 1, "Fog", "X", 0⟩]
        [(CityKey "paris", ⟨"paris", mkRat 2 1, "Sun", "Y", 1⟩)] "paris" true
        none false).1 =
      (GetWeather [⟨"paris", mkRat 1 1, "Fog", "X", 0⟩] [] "paris" false none
        false).1 ∧
    (GetWeather [⟨"paris", mkRat 1 1, "Fog", "X", 0⟩] [] "paris" false
        (some "timeout") false).1 =
      Response.errJson 404 ⟨"Город не найден", "ошибка получения данных: timeout"⟩ :=
  ⟨by decide,
   (c4_amended_cache_miss_store_404 [⟨"paris", mkRat 1 1, "Fog", "X", 0⟩]
      [(CityKey "paris", ⟨"paris", mkRat 2 1, "Sun", "Y", 1⟩)] [] "paris" none
      false "timeout" (by decide)).1,
   (c4_amended_cache_miss_store_404 [⟨"paris", mkRat 1 1, "Fog", "X", 0⟩]
      [(CityKey "paris", ⟨"paris", mkRat 2 1, "Sun", "Y", 1⟩)] [] "paris" none
      false "timeout" (by decide)).2.1⟩

/-- C6: on the PUT write path, a failed upsert yields the 500 error response
with the cache completely untouched and no cache operation issued, while
a successful upsert issues exactly the two invalidations — the per-city
key then the aggregate listing key — before the `status: ok` response;
when Redis is healthy both entries are gone from the final cache. -/
theorem c6_put_cache_invalidation (t : Table) (c : Cache) (raw : String)
    (body : WeatherData) (now : Int) (saveErr : String)
    (delCityErr delAllErr : Bool) :
    ((UpdateWeather t c raw (some body) now false saveErr delCityErr
        delAllErr).1 =
        Response.errJson 500 ⟨"Ошибка сохранения", saveErr⟩ ∧
      (UpdateWeather t c raw (some body) now false saveErr delCityErr
        delAllErr).2.2.1 = c ∧
      (UpdateWeather t c raw (some body) now false saveErr delCityErr
        delAllErr).2.2.2 = []) ∧
    ((UpdateWeather t c raw (some body) now true saveErr delCityErr
        delAllErr).1 = Response.okStatus ∧
      (UpdateWeather t c raw (some body) now true saveErr delCityErr
        delAllErr).2.2.2 =
        [CacheOp.del (CityKey (goToLower raw)), CacheOp.del AllCitiesKey] ∧
      cacheLookup (UpdateWeather t c raw (some body) now true saveErr false
        false).2.2.1 (CityKey (goToLower raw)) = none ∧
      cacheLookup (UpdateWeather t c raw (some body) now true saveErr false
        false).2.2.1 AllCitiesKey = none) := by
  refine ⟨⟨rfl, rfl, rfl⟩, rfl, rfl, ?_, ?_⟩
  · show cacheLookup
      (cacheDelete (cacheDelete c (CityKey (goToLower raw))) AllCitiesKey)
      (CityKey (goToLower raw)) = none
    exact cacheLookup_delete_none _ _ _
      (cacheLookup_delete_self c (CityKey (goToLower raw)))
  · show cacheLookup
      (cacheDelete (cacheDelete c (CityKey (goToLower raw))) AllCitiesKey)
      AllCitiesKey = none
    exact cacheLookup_delete_self _ _

/-- C9: reading a city that is absent from the store (with no cache entry
for it) produces a 404 whose error envelope carries a non-empty error
and a non-empty message, and performs no cache population — the cache is
returned unchanged and still holds nothing under the city's key. -/
theorem c9_not_found_no_negative_caching (t : Table) (c : Cache) (raw : String)
    (hmiss : cacheLookup c (CityKey (goToLower raw)) = none)
    (habsent : getRow t (goToLower raw) = none) :
    (GetWeather t c raw false none false).1 =
      Response.errJson 404
        ⟨"Город не найден", "город " ++ goToLower raw ++ " не найден"⟩ ∧
    (GetWeather t c raw false none false).1.statusCode = 404 ∧
    "Город не найден" ≠ "" ∧
    "город " ++ goToLower raw ++ " не найден" ≠ "" ∧
    (GetWeather t c raw false none false).2 = c ∧
    cacheLookup (GetWeather t c raw false none false).2
      (CityKey (goToLower raw)) = none := by
  have hresp : GetWeather t c raw false none false =
      (Response.errJson 404
        ⟨"Город не найден", "город " ++ goToLower raw ++ " не найден"⟩, c) := by
    simp [GetWeather, hmiss, getByCityGo, habsent]
  refine ⟨by rw [hresp], by rw [hresp]; rfl, by decide, ?_, by rw [hresp],
    by rw [hresp]; exact hmiss⟩
  intro hcontra
  have : ("город " ++ goToLower raw ++ " не найден").data = ([] : List Char) :=
    congrArg String.data hcontra
  simp [String.data_append] at this

theorem c9_not_found_no_negative_caching_witness :
    cacheLookup [] (CityKey (goToLower "unknown")) = none ∧
    getRow [] (goToLower "unknown") = none ∧
    (GetWeather [] [] "unknown" false none false).1 =
      Response.errJson 404
        ⟨"Город не найден", "город " ++ goToLower "unknown" ++ " не найден"⟩ ∧
    "город " ++ goToLower "unknown" ++ " не найден" ≠ "" ∧
    (GetWeather [] [] "unknown" false none false).2 = [] :=
  ⟨rfl, rfl,
   (c9_not_found_no_negative_caching [] [] "unknown" rfl rfl).1,
   (c9_not_found_no_negative_caching [] [] "unknown" rfl rfl).2.2.2.1,
   (c9_not_found_no_negative_caching [] [] "unknown" rfl rfl).2.2.2.2.1⟩

theorem splitCharOn_ne_nil (sep : Char) (l : List Char) :
    splitCharOn sep l ≠ [] := by
  cases l with
  | nil => simp [splitCharOn]
  | cons x xs =>
    unfold splitCharOn
    cases splitCharOn sep xs with
    | nil => simp
    | cons h t =>
      by_cases hx : x = sep <;> simp [hx]

theorem splitCharOn_of_not_mem (sep : Char) (x : List Char) (h : sep ∉ x) :
    splitCharOn sep x = [x] := by
  induction x with
  | nil => rfl
  | cons a as ih =>
    have ha : ¬ a = sep := fun hEq => h (hEq ▸ List.mem_cons_self a as)
    have has : sep ∉ as := fun hmem => h (List.mem_cons_of_mem a hmem)
    unfold splitCharOn
    rw [ih has]
    simp [ha]

theorem splitCharOn_append_sep (sep : Char) (x r : List Char) (h : sep ∉ x) :
    splitCharOn sep (x ++ sep :: r) = x :: splitCharOn sep r := by
  induction x with
  | nil =>
    show splitCharOn sep (sep :: r) = [] :: splitCharOn sep r
    simp only [splitCharOn]
    cases hr : splitCharOn sep r with
    | nil => exact absurd hr (splitCharOn_ne_nil sep r)
    | cons hd tl => simp
  | cons a as ih =>
    have ha : ¬ a = sep := fun hEq => h (hEq ▸ List.mem_cons_self a as)
    have has : sep ∉ as := fun hmem => h (List.mem_cons_of_mem a hmem)
    show splitCharOn sep (a :: (as ++ sep :: r)) = _
    simp only [splitCharOn]
    rw [ih has]
    simp [ha]

theorem splitCharOn_joinCharOn (sep : Char) (l : List (List Char))
    (hne : l ≠ []) (hcf : ∀ x ∈ l, sep ∉ x) :
    splitCharOn sep (joinCharOn sep l) = l := by
  induction l with
  | nil => exact absurd rfl hne
  | cons x xs ih =>
    cases xs with
    | nil =>
      show splitCharOn sep (joinCharOn sep [x]) = [x]
      rw [show joinCharOn sep [x] = x from rfl]
      exact splitCharOn_of_not_mem sep x (hcf x (List.mem_cons_self x []))
    | cons y ys =>
      show splitCharOn sep (x ++ sep :: joinCharOn sep (y :: ys)) = _
      rw [splitCharOn_append_sep sep x _ (hcf x (List.mem_cons_self x _))]
      rw [ih (by simp) (fun z hz => hcf z (List.mem_cons_of_mem x hz))]

theorem goSplit_goJoin (cities : List String) (hne : cities ≠ [])
    (hcf : ∀ s ∈ cities, ',' ∉ s.data) :
    goSplitComma (goJoinComma cities) = cities := by
  unfold goSplitComma goJoinComma
  rw [show ((joinCharOn ',' (cities.map String.toList)).asString).toList =
      joinCharOn ',' (cities.map String.toList) from rfl]
  rw [splitCharOn_joinCharOn ',' (cities.map String.toList)
    (by simpa using hne)
    (by intro x hx
        obtain ⟨s, hs, hxs⟩ := List.mem_map.mp hx
        rw [← hxs]
        exact hcf s hs)]
  rw [List.map_map]
  exact List.map_congr_left (fun s _ => rfl) |>.trans (List.map_id cities)

/-- C10 counterexample: the empty city list does not round-trip.  A
store-served `GET /cities` on an empty store returns `cities: [], total:
0` and caches the joined string `""`; the next request, served from that
very cache entry, splits `""` into `[""]` and answers `cities: [""],
total: 1` — a different response for the same store state. -/
theorem c10_counterexample :
    goSplitComma (goJoinComma []) = [""] ∧
    ([""] : List String) ≠ [] ∧
    (GetAllCities (.ok []) [] false false).2 =
      cachePut [] AllCitiesKey (citiesCacheValue []) ∧
    (GetAllCities (.ok [])
      (cachePut [] AllCitiesKey (citiesCacheValue [])) false false).1 =
      Response.cities [""] 1 ∧
    (GetAllCities (.ok []) [] false false).1 = Response.cities [] 0 ∧
    (GetAllCities (.ok [])
        (cachePut [] AllCitiesKey (citiesCacheValue [])) false false).1 ≠
      (GetAllCities (.ok []) [] false false).1 := by decide

/-- C10 amended: the comma-joined encoding round-trips exactly the
NON-EMPTY city lists whose names contain no comma: for those, splitting
the cached joined string restores the same list with the same length,
and a cache-served listing response equals the store-served response for
the same store state; the empty list is the exception exhibited by the
counterexample. -/
theorem c10_roundtrip_nonempty (cities : List String) (c : Cache)
    (hne : cities ≠ []) (hcf : ∀ s ∈ cities, ',' ∉ s.data)
    (hcache : cacheLookup c AllCitiesKey = some (citiesCacheValue cities)) :
    goSplitComma (goJoinComma cities) = cities ∧
    (goSplitComma (goJoinComma cities)).length = cities.length ∧
    (GetAllCities (.ok cities) c false false).1 =
      (GetAllCities (.ok cities) [] false false).1 := by
  have hrt := goSplit_goJoin cities hne hcf
  refine ⟨hrt, by rw [hrt], ?_⟩
  have hlhs : (GetAllCities (.ok cities) c false false).1 =
      Response.cities (goSplitComma (goJoinComma cities))
        (goSplitComma (goJoinComma cities)).length := by
    simp [GetAllCities, hcache, citiesCacheValue]
  rw [hlhs, hrt]
  rfl

theorem c10_roundtrip_nonempty_witness :
    (["berlin", "moscow"] : List String) ≠ [] ∧
    (∀ s ∈ (["berlin", "moscow"] : List String), ',' ∉ s.data) ∧
    cacheLookup [(AllCitiesKey, citiesCacheValue ["berlin", "moscow"])]
      AllCitiesKey = some (citiesCacheValue ["berlin", "moscow"]) ∧
    goSplitComma (goJoinComma ["berlin", "moscow"]) = ["berlin", "moscow"] ∧
    (GetAllCities (.ok ["berlin", "moscow"])
        [(AllCitiesKey, citiesCacheValue ["berlin", "moscow"])] false
        false).1 =
      (GetAllCities (.ok ["berlin", "moscow"]) [] false false).1 :=
  ⟨by decide, by decide, rfl,
   (c10_roundtrip_nonempty ["berlin", "moscow"]
      [(AllCitiesKey, citiesCacheValue ["berlin", "moscow"])] (by decide)
      (by decide) rfl).1,
   (c10_roundtrip_nonempty ["berlin", "moscow"]
      [(AllCitiesKey, citiesCacheValue ["berlin", "moscow"])] (by decide)
      (by decide) rfl).2.2⟩

/-- The older `Save` variant in src/unnamed/part_001 differs observably from
the authoritative one: its `ON CONFLICT` update leaves the existing row's
`provider` in place (here `"Old"` survives) where
`src/internal/storage/postgres.go` replaces it. -/
theorem savePartOne_omits_provider :
    savePartOne 5 ⟨"paris", mkRat 2 1, "Sun", "Y", 1⟩
      [⟨"paris", mkRat 1 1, "Fog", "Old", 0⟩] =
      [⟨"paris", mkRat 2 1, "Sun", "Old", 5⟩] ∧
    save 5 ⟨"paris", mkRat 2 1, "Sun", "Y", 1⟩
      [⟨"paris", mkRat 1 1, "Fog", "Old", 0⟩] =
      [⟨"paris", mkRat 2 1, "Sun", "Y", 5⟩] := by decide
